import Mathlib

/-!
Verification development for the procrastitask task-tracking engine.

The Python source is shallowly embedded: timestamps and stress values are
rationals (`ℚ`, with timestamps measured in seconds), Python exceptions
become an explicit `PyErr` error type with `Except`, and external
collaborators (cron evaluation, location lookup, geodesic distance) are
modelled as explicitly passed functions, mirroring the spec's description
of them as external interfaces.

Layout: definitions first (dynamics engine, task model, recurrence
resolver, due-date resolver, text parsing, collection queries), then the
theorems settling each claim.
-/

/-- Python exception classes that the embedded code can raise.
`unmatchedDynamic` carries the list of known prefixes, modelling the
`ValueError` message of `BaseDynamic.find_dynamic`. -/
inductive PyErr where
  | valueError : PyErr
  | unmatchedDynamic : List (List Char) → PyErr
  | typeError : PyErr
  | attributeError : PyErr
  | indexError : PyErr
  | runtimeError : PyErr
  deriving Repr, DecidableEq

/-- The three operator tokens of `CombinedDynamic`: `(+)`, `(-)` and `(|+)`
(`combined_dynamic.py`). Any other operator string raises, and the parser
only ever produces these three. -/
inductive Op where
  | add : Op
  | subtract : Op
  | guardedAdd : Op
  deriving Repr, DecidableEq

namespace CombinedDynamic

/-- The loop body of `CombinedDynamic.apply`
(`src/src/procrastitask/dynamics/combined_dynamic.py`, lines 40-56).
Each child dynamic is abstracted, as the loop uses it, to the function
`current_stress ↦ child.apply(creation_date, current_stress, task)`.
State: the running `current_stress`, `prev_diff`, and the `allow` flag.
When `allow` is false the loop keeps iterating (computing `next_diff`,
which is effect-free here) but applies no operator, exactly as the
`continue` in the source. The `(op :: _, [])` case is unreachable for
well-formed inputs (Python would raise `IndexError` on `dynamics[i+1]`);
it returns the accumulated stress. -/
def applyAux : List Op → List (ℚ → ℚ) → ℚ → ℚ → Bool → ℚ
  | [], _, current_stress, _, _ => current_stress
  | _ :: _, [], current_stress, _, _ => current_stress
  | op :: ops, d :: ds, current_stress, prev_diff, allow =>
    let next_diff := d current_stress - current_stress
    if allow then
      match op with
      | .add => applyAux ops ds (current_stress + next_diff) next_diff allow
      | .subtract => applyAux ops ds (current_stress - next_diff) next_diff allow
      | .guardedAdd =>
        if prev_diff ≠ 0 then
          applyAux ops ds (current_stress + next_diff) next_diff allow
        else
          applyAux ops ds current_stress next_diff false
    else
      applyAux ops ds current_stress prev_diff allow

/-- `CombinedDynamic.apply` (`combined_dynamic.py`, lines 34-57): start
from `base_stress`, fold the children through `applyAux`, and floor the
result at 0. Empty children would raise `IndexError` in Python; the
claims only concern non-empty children lists. -/
def apply (dynamics : List (ℚ → ℚ)) (operators : List Op) (base_stress : ℚ) : ℚ :=
  match dynamics with
  | [] => 0
  | d0 :: rest =>
    let prev_diff := d0 base_stress - base_stress
    let current_stress := base_stress + prev_diff
    max (applyAux operators rest current_stress prev_diff true) 0

end CombinedDynamic

/-- Modelled from the claim's words (the running-accumulation algorithm of
spec §4.1), for comparison with `CombinedDynamic.apply`: each later child
is evaluated against the already-accumulated stress giving
`diff_i = result_i - current_stress`; ADD adds it, SUBTRACT subtracts it,
GUARDED_ADD applies it only when the previous diff was non-zero and
otherwise stops executing all remaining operators while keeping the
accumulated stress. -/
def runningAccumulation : List Op → List (ℚ → ℚ) → ℚ → ℚ → ℚ
  | [], _, current_stress, _ => current_stress
  | _ :: _, [], current_stress, _ => current_stress
  | op :: ops, d :: ds, current_stress, prev_diff =>
    let diff := d current_stress - current_stress
    match op with
    | .add => runningAccumulation ops ds (current_stress + diff) diff
    | .subtract => runningAccumulation ops ds (current_stress - diff) diff
    | .guardedAdd =>
      if prev_diff ≠ 0 then runningAccumulation ops ds (current_stress + diff) diff
      else current_stress

/-- The claim-side top level: `current_stress` starts at
`base_stress + (d0's result - base_stress)`, the operators run as a
running accumulation, and the final result is `max(current_stress, 0)`. -/
def runningAccumulationSpec (dynamics : List (ℚ → ℚ)) (operators : List Op)
    (base_stress : ℚ) : ℚ :=
  match dynamics with
  | [] => 0
  | d0 :: rest =>
    max (runningAccumulation operators rest (d0 base_stress) (d0 base_stress - base_stress)) 0

theorem CombinedDynamic.applyAux_not_allowed (ops : List Op) (ds : List (ℚ → ℚ))
    (c p : ℚ) : CombinedDynamic.applyAux ops ds c p false = c := by
  induction ops generalizing ds with
  | nil => rfl
  | cons op ops ih =>
    cases ds with
    | nil => rfl
    | cons d ds => simpa [CombinedDynamic.applyAux] using ih ds

theorem CombinedDynamic.applyAux_eq_runningAccumulation (ops : List Op)
    (ds : List (ℚ → ℚ)) (c p : ℚ) :
    CombinedDynamic.applyAux ops ds c p true = runningAccumulation ops ds c p := by
  induction ops generalizing ds c p with
  | nil => rfl
  | cons op ops ih =>
    cases ds with
    | nil => rfl
    | cons d ds =>
      cases op with
      | add => simpa [CombinedDynamic.applyAux, runningAccumulation] using ih ds _ _
      | subtract => simpa [CombinedDynamic.applyAux, runningAccumulation] using ih ds _ _
      | guardedAdd =>
        by_cases hp : p ≠ 0
        · simpa [CombinedDynamic.applyAux, runningAccumulation, hp] using ih ds _ _
        · simp [CombinedDynamic.applyAux, runningAccumulation, hp,
            CombinedDynamic.applyAux_not_allowed]

/-- C1: `CombinedDynamic.apply` follows the running-accumulation
algorithm (each child sees the already-accumulated stress; GUARDED_ADD
short-circuits all remaining operators on a zero previous diff; the
result is floored at 0), and in particular with children producing diffs
[0, 5, 10] under operators [GUARDED_ADD, ADD] it returns the non-negative
base stress unchanged, while with diffs [1, 5, 10] it returns base + 16. -/
theorem combined_apply_follows_running_accumulation :
    (∀ (dynamics : List (ℚ → ℚ)) (operators : List Op) (base_stress : ℚ),
      CombinedDynamic.apply dynamics operators base_stress =
        runningAccumulationSpec dynamics operators base_stress) ∧
    (∀ base_stress : ℚ, 0 ≤ base_stress →
      CombinedDynamic.apply
        [fun c => c + 0, fun c => c + 5, fun c => c + 10]
        [.guardedAdd, .add] base_stress = base_stress) ∧
    (∀ base_stress : ℚ, 0 ≤ base_stress →
      CombinedDynamic.apply
        [fun c => c + 1, fun c => c + 5, fun c => c + 10]
        [.guardedAdd, .add] base_stress = base_stress + 16) := by
  refine ⟨?_, ?_, ?_⟩
  · intro dynamics operators base_stress
    cases dynamics with
    | nil => rfl
    | cons d0 rest =>
      simp [CombinedDynamic.apply, runningAccumulationSpec,
        CombinedDynamic.applyAux_eq_runningAccumulation]
  · intro base_stress hb
    simp [CombinedDynamic.apply, CombinedDynamic.applyAux,
      CombinedDynamic.applyAux_not_allowed]
    exact hb
  · intro base_stress hb
    simp [CombinedDynamic.apply, CombinedDynamic.applyAux]
    have h16 : base_stress + 1 + 5 + 10 = base_stress + 16 := by ring
    rw [h16]
    exact max_eq_left (by linarith)

/-- Witness for C1: the two guarded-add examples evaluated at base
stress 100. -/
theorem combined_apply_follows_running_accumulation_witness :
    CombinedDynamic.apply [fun c => c + 0, fun c => c + 5, fun c => c + 10]
      [.guardedAdd, .add] 100 = 100 ∧
    CombinedDynamic.apply [fun c => c + 1, fun c => c + 5, fun c => c + 10]
      [.guardedAdd, .add] 100 = 100 + 16 :=
  ⟨combined_apply_follows_running_accumulation.2.1 100 (by norm_num),
   combined_apply_follows_running_accumulation.2.2 100 (by norm_num)⟩

/-! Python string and number primitives, over `List Char`. -/

instance {ε α : Type} [DecidableEq ε] [DecidableEq α] : DecidableEq (Except ε α) := fun x y =>
  match x, y with
  | .ok a, .ok b =>
    if h : a = b then isTrue (by rw [h]) else isFalse (fun hh => h (Except.ok.inj hh))
  | .error a, .error b =>
    if h : a = b then isTrue (by rw [h]) else isFalse (fun hh => h (Except.error.inj hh))
  | .ok _, .error _ => isFalse (fun hh => Except.noConfusion hh)
  | .error _, .ok _ => isFalse (fun hh => Except.noConfusion hh)

/-- Floor of a rational as an integer, written with explicit integer
floor-division so that concrete values reduce inside the kernel. -/
def ratFloor (q : ℚ) : ℤ := Int.fdiv q.num q.den

/-- Python's substring test `needle in hay` (empty needle matches). -/
def pyIn (needle : List Char) : List Char → Bool
  | [] => needle.isPrefixOf []
  | c :: rest => needle.isPrefixOf (c :: rest) || pyIn needle rest

/-- Worker for `pySplit`, with fuel bounding the scan (the fuel is the
text length, so it never runs out for non-empty separators). -/
def pySplitGo (sep : List Char) : ℕ → List Char → List Char → List (List Char)
  | 0, acc, _ => [acc.reverse]
  | _ + 1, acc, [] => [acc.reverse]
  | fuel + 1, acc, c :: rest =>
    if sep.isPrefixOf (c :: rest) ∧ sep ≠ [] then
      acc.reverse :: pySplitGo sep fuel [] ((c :: rest).drop sep.length)
    else
      pySplitGo sep fuel (c :: acc) rest

/-- Python's `text.split(sep)` for a non-empty separator: left-to-right,
non-overlapping cuts, keeping empty pieces. -/
def pySplit (sep text : List Char) : List (List Char) :=
  pySplitGo sep text.length [] text

/-- Python's `str.strip()` restricted to the space character (the only
whitespace these texts contain). -/
def pyStrip (s : List Char) : List Char :=
  ((s.dropWhile (fun c => c = ' ')).reverse.dropWhile (fun c => c = ' ')).reverse

/-- Value of a decimal digit character. -/
def digitVal (c : Char) : Option ℕ :=
  if '0' ≤ c ∧ c ≤ '9' then some (c.toNat - '0'.toNat) else none

/-- Value of a non-empty all-digit string. -/
def digitsVal : List Char → Option ℕ
  | [] => none
  | [c] => digitVal c
  | c :: rest => do
    let d ← digitVal c
    let r ← digitsVal rest
    pure (d * 10 ^ rest.length + r)

/-- Python's `int(s)`: optional surrounding whitespace, optional sign,
one or more digits. -/
def pyInt (s : List Char) : Except PyErr ℤ :=
  match pyStrip s with
  | '-' :: ds => match digitsVal ds with
    | some n => .ok (-(n : ℤ))
    | none => .error .valueError
  | '+' :: ds => match digitsVal ds with
    | some n => .ok (n : ℤ)
    | none => .error .valueError
  | ds => match digitsVal ds with
    | some n => .ok (n : ℤ)
    | none => .error .valueError

/-- Unsigned float body: `digits`, `digits.`, `digits.digits` or
`.digits`. -/
def floatBody : List Char → Option ℚ := fun s =>
  match pySplit ['.'] s with
  | [ip] => (digitsVal ip).map (fun n => (n : ℚ))
  | [ip, fp] =>
    match ip, fp with
    | [], [] => none
    | [], _ => (digitsVal fp).map (fun f => (f : ℚ) / 10 ^ fp.length)
    | _, [] => (digitsVal ip).map (fun n => (n : ℚ))
    | _, _ => do
      let n ← digitsVal ip
      let f ← digitsVal fp
      pure ((n : ℚ) + (f : ℚ) / 10 ^ fp.length)
  | _ => none

/-- Python's `float(s)` for the decimal literals this engine produces
(no exponents, infinities or NaN, which never occur in dynamic texts). -/
def pyFloat (s : List Char) : Except PyErr ℚ :=
  match pyStrip s with
  | '-' :: body => match floatBody body with
    | some q => .ok (-q)
    | none => .error .valueError
  | '+' :: body => match floatBody body with
    | some q => .ok q
    | none => .error .valueError
  | body => match floatBody body with
    | some q => .ok q
    | none => .error .valueError

/-- Decimal digits of the fractional part of a non-negative rational,
with fuel (Python prints the shortest round-tripping form; for the exact
decimal fractions stored in these dynamics the expansions agree). -/
def fracDigits : ℕ → ℚ → List Char
  | 0, _ => []
  | fuel + 1, q =>
    let d := (ratFloor (q * 10)).toNat
    let rest := q * 10 - ratFloor (q * 10)
    Char.ofNat (d + '0'.toNat) :: (if rest = 0 then [] else fracDigits fuel rest)

/-- Python's float formatting `f"{x}"` for exact decimal rationals:
sign, integer part, a dot, then the fractional digits (`"0"` when the
value is integral, as Python prints `40.0`). -/
def pyFloatRepr (q : ℚ) : List Char :=
  let sign : List Char := if q < 0 then ['-'] else []
  let a := |q|
  let ip := (ratFloor a).toNat
  let fp := a - ratFloor a
  sign ++ (Nat.toDigits 10 ip) ++ '.' :: (if fp = 0 then ['0'] else fracDigits 17 fp)


/-! The task data model and its collaborators. -/

/-- Cron-expression evaluation (the croniter collaborator of spec §6):
next/previous occurrence relative to a reference time. -/
structure Cron where
  next : ℚ → ℚ
  prev : ℚ → ℚ

/-- External collaborators passed explicitly: cron evaluation for a cron
string, `get_location()` (parsed "lat,lon", or none when unavailable) and
geopy's geodesic distance in meters. -/
structure Env where
  cronEval : List Char → Cron
  location : Option (ℚ × ℚ)
  geodesic : (ℚ × ℚ) → (ℚ × ℚ) → ℚ

/-- `TaskStatus` (`task.py` lines 16-19): the source class has exactly
these three states. -/
inductive TaskStatus where
  | incomplete : TaskStatus
  | in_progress : TaskStatus
  | complete : TaskStatus
  deriving Repr, DecidableEq

/-- `CompletionRecord` (`task.py` lines 21-24). -/
structure CompletionRecord where
  completed_at : ℚ
  stress_at_completion : ℚ
  deriving Repr, DecidableEq

namespace Procrastitask

/-- The dynamic variants (`src/src/procrastitask/dynamics/`), with the
parameters each carries in its Python class. -/
inductive Dyn where
  | linear (interval : ℚ) : Dyn
  | linearWithPeak (interval : ℚ) (peak : ℚ) : Dyn
  | absoluteLinear (increase_by : ℚ) (every_x_days : ℚ) : Dyn
  | stepDueDate (increase_by_percentage : ℚ) (increase_days_before : ℚ) : Dyn
  | staticOffset (offset : ℚ) : Dyn
  | location (latitude : ℚ) (longitude : ℚ) (radius : ℚ) : Dyn
  | combined (dynamics : List Dyn) (operators : List Op) : Dyn

/-- `Task` (`task.py` lines 37-58), with timestamps in seconds. Text
fields are `List Char`; optional fields mirror Python's None. (The name
lives in a namespace because core Lean already has a `Task`.) -/
structure Task where
  title : List Char
  description : List Char
  difficulty : ℚ
  duration : ℚ
  stress : ℚ
  _is_complete : Bool
  due_date : Option ℚ
  due_date_cron : Option (List Char)
  last_refreshed : ℚ
  identifier : List Char
  dependent_on : List (List Char)
  stress_dynamic : Option Dyn
  creation_date : ℚ
  list_name : List Char
  cool_down : Option (List Char)
  periodicity : Option (List Char)
  history : List CompletionRecord
  status : TaskStatus

/-- Python's `round(x, 1)` (used by `get_rendered_stress`): round to one
decimal, ties to even (banker's rounding). -/
def pyRound1 (q : ℚ) : ℚ :=
  let y := q * 10
  let f := ratFloor y
  let r := y - f
  if r < 1/2 then (f : ℚ) / 10
  else if 1/2 < r then ((f : ℚ) + 1) / 10
  else if f % 2 = 0 then (f : ℚ) / 10 else ((f : ℚ) + 1) / 10

namespace Task

/-- `Task.convert_cool_down_str_to_delta` (`task.py` lines 133-145):
interval spec to a duration in seconds. The month unit is Python's
`timedelta(weeks=n*4.345)`. An unparseable spec raises `ValueError`. -/
def convert_cool_down_str_to_delta (cool_down : List Char) : Except PyErr ℚ :=
  if pyIn "min".data cool_down then
    (pyInt (pySplit "min".data cool_down).headI).map (fun n => (n : ℚ) * 60)
  else if pyIn "hr".data cool_down then
    (pyInt (pySplit "hr".data cool_down).headI).map (fun n => (n : ℚ) * 3600)
  else if pyIn "d".data cool_down then
    (pyInt (pySplit "d".data cool_down).headI).map (fun n => (n : ℚ) * 86400)
  else if pyIn "w".data cool_down then
    (pyInt (pySplit "w".data cool_down).headI).map (fun n => (n : ℚ) * 604800)
  else if pyIn "m".data cool_down then
    (pyInt (pySplit "m".data cool_down).headI).map (fun n => (n : ℚ) * (869/200) * 604800)
  else .error .valueError

/-- `Task.get_dynamic_base_date` (`task.py` lines 147-181). `now` is
`datetime.now()`; cron evaluation comes from the environment. -/
def get_dynamic_base_date (t : Task) (now : ℚ) (env : Env) : Except PyErr ℚ :=
  match t.periodicity with
  | some p =>
    let cron := env.cronEval p
    let prev_period := cron.prev now
    match t.history.getLast? with
    | some lastRec =>
      if lastRec.completed_at < prev_period then .ok prev_period
      else .ok lastRec.completed_at
    | none => .ok prev_period
  | none =>
    match t.cool_down with
    | some cd =>
      match t.history.getLast? with
      | some lastRec => do
        let cooldown_delta ← convert_cool_down_str_to_delta cd
        let cooldown_expiry := lastRec.completed_at + cooldown_delta
        if now > cooldown_expiry then .ok cooldown_expiry else .ok t.creation_date
      | none => .ok t.creation_date
    | none => .ok t.creation_date

/-- `Task.current_due_date` (`task.py` lines 242-261): with a cron due
date, build the first N+1 occurrences after `creation_date` (N = number
of completions; the source sorts the history but uses only its length)
and take index N; the `else` branch of the source's length test is kept
although the test is always true. Without a cron, the fixed `due_date`. -/
def current_due_date (t : Task) (env : Env) : Option ℚ :=
  match t.due_date_cron with
  | some s =>
    let cron := env.cronEval s
    let completions := t.history.length
    let due_dates := (List.range (completions + 1)).map
      (fun i => cron.next^[i + 1] t.creation_date)
    if h : completions < due_dates.length then some (due_dates.get ⟨completions, h⟩)
    else some (cron.next^[completions + 2] t.creation_date)
  | none => t.due_date

end Task

/-- Monadic mirror of the `CombinedDynamic.apply` loop for task-level
evaluation, where a child's evaluation can raise: identical control flow
to `CombinedDynamic.applyAux`, with child errors propagating out. -/
def applyCombinedAuxE : List Op → List (ℚ → Except PyErr ℚ) → ℚ → ℚ → Bool →
    Except PyErr ℚ
  | [], _, current_stress, _, _ => .ok current_stress
  | _ :: _, [], _, _, _ => .error .indexError
  | op :: ops, f :: fs, current_stress, prev_diff, allow => do
    let r ← f current_stress
    let next_diff := r - current_stress
    if allow then
      match op with
      | .add => applyCombinedAuxE ops fs (current_stress + next_diff) next_diff allow
      | .subtract => applyCombinedAuxE ops fs (current_stress - next_diff) next_diff allow
      | .guardedAdd =>
        if prev_diff ≠ 0 then
          applyCombinedAuxE ops fs (current_stress + next_diff) next_diff allow
        else
          applyCombinedAuxE ops fs current_stress next_diff false
    else
      applyCombinedAuxE ops fs current_stress prev_diff allow

/-- Entry to the combined loop: evaluate child 0 at the base stress, run
the operators, floor the final accumulated stress at 0. -/
def applyCombinedE (fs : List (ℚ → Except PyErr ℚ)) (operators : List Op)
    (base_stress : ℚ) : Except PyErr ℚ :=
  match fs with
  | [] => .error .indexError
  | f0 :: rest => do
    let r0 ← f0 base_stress
    let prev_diff := r0 - base_stress
    let current_stress := base_stress + prev_diff
    let final ← applyCombinedAuxE operators rest current_stress prev_diff true
    .ok (max final 0)

/-- `apply(creation_date, base_stress, task)` for each variant, against a
fixed `now`. Linear (`linear_dynamic.py`): elapsed days over the passed
date divided by the interval. LinearWithPeak
(`linear_with_peak_dynamic.py`): reads `task.get_dynamic_base_date()`
(raising `AttributeError` on a null task), ignores the passed date, caps
at the peak. AbsoluteLinear (`absolute_linear_dynamic.py`): increments
times `increase_by`. StepDueDate (`step_due_date_dynamic.py`): requires
the task and a resolvable `current_due_date`, else `ValueError`; bumps by
a percentage inside the window. StaticOffset
(`static_offset_dynamic.py`): adds the offset, floored at 0. Location
(`location_dynamic.py`): unmodified stress when no location; doubled
inside the radius. Combined (`combined_dynamic.py`): the running
accumulation over the children. -/
def Dyn.apply (d : Dyn) (creation_date now base_stress : ℚ) (task : Option Task)
    (env : Env) : Except PyErr ℚ :=
  match d with
  | .linear interval =>
    .ok (base_stress + ((now - creation_date) / 86400) / interval)
  | .linearWithPeak interval peak =>
    match task with
    | none => .error .attributeError
    | some t =>
      (t.get_dynamic_base_date now env).map
        (fun bd => min (base_stress + ((now - bd) / 86400) / interval) peak)
  | .absoluteLinear increase_by every_x_days =>
    .ok (base_stress + (now - creation_date) / 86400 / every_x_days * increase_by)
  | .stepDueDate increase_by_percentage increase_days_before =>
    match task with
    | none => .error .attributeError
    | some t =>
      match t.current_due_date env with
      | none => .error .valueError
      | some due =>
        if (due - now) / 86400 ≤ increase_days_before then
          .ok (base_stress + base_stress * (increase_by_percentage / 100))
        else .ok base_stress
  | .staticOffset offset => .ok (max (base_stress + offset) 0)
  | .location latitude longitude radius =>
    match env.location with
    | none => .ok base_stress
    | some user =>
      if env.geodesic user (latitude, longitude) ≤ radius then .ok (base_stress * 2)
      else .ok base_stress
  | .combined dynamics operators =>
    applyCombinedE
      (dynamics.attach.map (fun c => fun s => Dyn.apply c.1 creation_date now s task env))
      operators base_stress
termination_by sizeOf d
decreasing_by
  have := List.sizeOf_lt_of_mem c.2
  simp only [Dyn.combined.sizeOf_spec]
  omega

/-- `Task.get_rendered_stress` (`task.py` lines 183-189): base stress
rounded to one decimal, or the dynamic applied at the dynamic base
date. -/
def Task.get_rendered_stress (t : Task) (now : ℚ) (env : Env) : Except PyErr ℚ :=
  match t.stress_dynamic with
  | none => .ok (pyRound1 t.stress)
  | some dyn => do
    let base_stress_date ← t.get_dynamic_base_date now env
    let r ← dyn.apply base_stress_date now t.stress (some t) env
    .ok (pyRound1 r)

/-- The inner `render_logic` of the `is_complete` property (`task.py`
lines 71-113): raw-flag check, then cool-down bounce (90% threshold),
then the periodicity grace window, then the always-incomplete
cron-due-date rule, and finally the raw flag. -/
def Task.render_logic (t : Task) (now : ℚ) (env : Env) : Except PyErr Bool :=
  if t._is_complete = false then .ok false
  else
    match t.cool_down with
    | some cd => do
      let time_since_last_completion := now -
        (match t.history.getLast? with
         | some lastRec => lastRec.completed_at
         | none => t.last_refreshed)
      let expected_interval ← Task.convert_cool_down_str_to_delta cd
      if time_since_last_completion > expected_interval * (9/10) then .ok false
      else .ok true
    | none =>
      match t.periodicity with
      | some p =>
        let cron := env.cronEval p
        let next_time_to_complete := cron.next now
        let previous_time_to_complete := cron.prev now
        let interval := next_time_to_complete - previous_time_to_complete
        let buffer := interval * (1/10)
        let reset_at := next_time_to_complete - buffer
        match t.history.getLast? with
        | none => .ok false
        | some lastRec =>
          if lastRec.completed_at < previous_time_to_complete - buffer then .ok false
          else if lastRec.completed_at ≥ reset_at then .ok true
          else if now > reset_at then .ok false
          else .ok true
      | none =>
        match t.due_date_cron with
        | some _ => .ok false
        | none => .ok t._is_complete

/-- The `is_complete` property read (`task.py` lines 66-121): computes
`render_logic`, writes the result back into `_is_complete`, forces
`status` to COMPLETE when complete and demotes a stale COMPLETE to
INCOMPLETE otherwise, and returns the stored flag. The updated task is
returned alongside the reported value. -/
def Task.is_complete (t : Task) (now : ℚ) (env : Env) : Except PyErr (Bool × Task) := do
  let result ← t.render_logic now env
  let status1 :=
    if result then TaskStatus.complete
    else if t.status = TaskStatus.complete then TaskStatus.incomplete
    else t.status
  .ok (result, { t with _is_complete := result, status := status1 })

/-- `Task.dependent_tasks_complete` (`task.py` lines 304-313): scan the
direct dependency identifiers; a missing reference is logged and
skipped; any found dependency with a false raw flag marks the task
blocked. No recursion takes place. -/
def Task.dependent_tasks_complete (t : Task) (all_tasks : List Task) : Bool :=
  let saw_incomplete := t.dependent_on.foldl
    (fun saw task_id =>
      match all_tasks.filter (fun x => x.identifier == task_id) with
      | [] => saw
      | found :: _ => if found._is_complete then saw else true)
    false
  !saw_incomplete


/-! The text registry: per-variant `from_text`, class `prefixes`
attributes, and `BaseDynamic.find_dynamic`. -/

/-- The shape of a variant's class-level `prefixes` attribute, as seen
when `get_all_prefixes` reads it off the class object: a plain list
(iterable), a `@staticmethod` (accessing yields the function object), or
a `@property` (accessing on the class yields the descriptor). The
carried strings are what calling the method would return. -/
inductive PrefixesAttr where
  | pyList : List (List Char) → PrefixesAttr
  | pyCallable : List (List Char) → PrefixesAttr
  | pyProperty : List (List Char) → PrefixesAttr

namespace BaseDynamic

/-- `BaseDynamic.get_cleaned_prefix_text` models `get_cleaned_prefix`
(`base_dynamic.py` lines 22-24): everything before the first brace. -/
def get_cleaned_prefix_text (pre : List Char) : List Char :=
  (pySplit "\x7b".data pre).headI

end BaseDynamic

namespace LinearDynamic

/-- `LinearDynamic.prefixes()` (`linear_dynamic.py` lines 29-31). -/
def prefixes : List (List Char) :=
  ["dynamic-linear-day.\x7bincrease_per_x_days\x7d".data,
   "linear-day.".data, "dynamic-linear-day-".data]

/-- `LinearDynamic.from_text` (`linear_dynamic.py` lines 33-45): the last
matching cleaned prefix splits the text; accept exactly two parts with an
empty first part and a float second part. -/
def from_text (text : List Char) : Except PyErr Dyn :=
  let parts := prefixes.foldl
    (fun acc pre =>
      let pre := BaseDynamic.get_cleaned_prefix_text pre
      if pyIn pre text then some (pySplit pre text) else acc)
    none
  match parts with
  | some [p0, p1] =>
    if p0 = [] then (pyFloat p1).map Dyn.linear else .error .valueError
  | _ => .error .valueError

end LinearDynamic

namespace LinearWithPeakDynamic

/-- `LinearWithPeakDynamic.prefixes()` (`linear_with_peak_dynamic.py`
lines 23-25). -/
def prefixes : List (List Char) :=
  ["dynamic-linear-day-peaked.\x7bincrease_per_x_days\x7d.\x7bmax_stress\x7d".data,
   "linear-day-peaked.".data]

/-- `LinearWithPeakDynamic.from_text` (`linear_with_peak_dynamic.py`
lines 27-40): for each matching cleaned prefix whose split has exactly
two parts and whose tail splits on "-" into exactly two values, assign
(interval, peak); the last assignment wins; then parse float and int. -/
def from_text (text : List Char) : Except PyErr Dyn :=
  let assigned := prefixes.foldl
    (fun acc pre =>
      let pre := BaseDynamic.get_cleaned_prefix_text pre
      if pyIn pre text then
        match pySplit pre text with
        | [_, p1] =>
          match pySplit "-".data p1 with
          | [iv, pk] => some (iv, pk)
          | _ => acc
        | _ => acc
      else acc)
    none
  match assigned with
  | some (iv, pk) => do
    let interval ← pyFloat iv
    let peak ← pyInt pk
    .ok (Dyn.linearWithPeak interval (peak : ℚ))
  | none => .error .valueError

end LinearWithPeakDynamic

namespace AbsoluteLinearDynamic

/-- `AbsoluteLinearDynamic.prefixes()` (`absolute_linear_dynamic.py`
lines 24-26). -/
def prefixes : List (List Char) :=
  ["dynamic-linear.\x7bincrease_by\x7d.\x7bevery_x_days\x7d".data,
   "linear.\x7bincrease_by\x7d.\x7bevery_x_days\x7d".data]

/-- `AbsoluteLinearDynamic.from_text` (`absolute_linear_dynamic.py`
lines 28-41): same last-assignment pattern as LinearWithPeak, with two
floats. -/
def from_text (text : List Char) : Except PyErr Dyn :=
  let assigned := prefixes.foldl
    (fun acc pre =>
      let pre := BaseDynamic.get_cleaned_prefix_text pre
      if pyIn pre text then
        match pySplit pre text with
        | [_, p1] =>
          match pySplit "-".data p1 with
          | [ib, ex] => some (ib, ex)
          | _ => acc
        | _ => acc
      else acc)
    none
  match assigned with
  | some (ib, ex) => do
    let increase_by ← pyFloat ib
    let every_x_days ← pyFloat ex
    .ok (Dyn.absoluteLinear increase_by every_x_days)
  | none => .error .valueError

end AbsoluteLinearDynamic

namespace StepDueDateDynamic

/-- `StepDueDateDynamic.prefixes()` (`step_due_date_dynamic.py`
lines 26-28). -/
def prefixes : List (List Char) :=
  ["dynamic-step-due.\x7bdays_before\x7d.\x7bpercentage\x7d".data]

/-- `StepDueDateDynamic.from_text` (`step_due_date_dynamic.py`
lines 42-56): two parts with an empty head, then the tail must split on
"." into exactly the integer days-before and percentage. -/
def from_text (text : List Char) : Except PyErr Dyn :=
  let parts := prefixes.foldl
    (fun acc pre =>
      let pre := BaseDynamic.get_cleaned_prefix_text pre
      if pyIn pre text then some (pySplit pre text) else acc)
    none
  match parts with
  | some [p0, p1] =>
    if p0 = [] then
      match pySplit ".".data p1 with
      | [days_before, percentage] => do
        let d ← pyInt days_before
        let p ← pyInt percentage
        .ok (Dyn.stepDueDate (p : ℚ) (d : ℚ))
      | _ => .error .valueError
    else .error .valueError
  | _ => .error .valueError

end StepDueDateDynamic

namespace StaticOffsetDynamic

/-- Whether a string matches the regex group `-?\d+` in full. -/
def isIntToken (s : List Char) : Bool :=
  match s with
  | '-' :: ds => !ds.isEmpty && ds.all (fun c => '0' ≤ c && c ≤ '9')
  | ds => !ds.isEmpty && ds.all (fun c => '0' ≤ c && c ≤ '9')

/-- `StaticOffsetDynamic.from_text` (`static_offset_dynamic.py`
lines 11-19): `re.fullmatch(r"static-offset\.(-?\d+)", text)`. -/
def from_text (text : List Char) : Except PyErr Dyn :=
  if "static-offset.".data.isPrefixOf text then
    let rest := text.drop ("static-offset.".data.length)
    if isIntToken rest then (pyInt rest).map (fun n => Dyn.staticOffset (n : ℚ))
    else .error .valueError
  else .error .valueError

end StaticOffsetDynamic

namespace LocationDynamic

/-- `LocationDynamic.prefixes` (`location_dynamic.py` lines 33-35), a
plain class-attribute list. -/
def prefixes : List (List Char) :=
  ["dynamic-location.\x7blatitude\x7d.\x7blongitude\x7d.\x7bradius\x7d".data,
   "location.".data]

/-- `LocationDynamic.from_text` (`location_dynamic.py` lines 37-57): the
last matching cleaned prefix splits the text; the last piece is split on
"."; a leading "current" consults the location provider (RuntimeError
when unavailable); otherwise the pieces must unpack into exactly
latitude, longitude, radius, all floats. -/
def from_text (env : Env) (text : List Char) : Except PyErr Dyn :=
  let parts := prefixes.foldl
    (fun acc pre =>
      let pre := BaseDynamic.get_cleaned_prefix_text pre
      if pyIn pre text then some (pySplit pre text) else acc)
    none
  match parts with
  | none => .error .valueError
  | some ps =>
    let items := pySplit ".".data (ps.getLastD [])
    if (items.take 2).contains "current".data then
      match env.location with
      | none => .error .runtimeError
      | some user => do
        let radius ← pyFloat (items.getLastD [])
        .ok (Dyn.location user.1 user.2 radius)
    else
      match items with
      | [la, lo, ra] => do
        let latitude ← pyFloat la
        let longitude ← pyFloat lo
        let radius ← pyFloat ra
        .ok (Dyn.location latitude longitude radius)
      | _ => .error .valueError

/-- `LocationDynamic.to_text` (`location_dynamic.py` lines 59-60):
`f"dynamic-location-{latitude}-{longitude}-{radius}"`, with Python float
formatting and dash separators. -/
def to_text (latitude longitude radius : ℚ) : List Char :=
  "dynamic-location-".data ++ pyFloatRepr latitude ++ "-".data ++
    pyFloatRepr longitude ++ "-".data ++ pyFloatRepr radius

end LocationDynamic

/-- The scan `for class_obj in all_dynamics: try return from_text(...)`
of `find_dynamic` (`base_dynamic.py` lines 48-59): first success wins,
every exception is swallowed by the bare `except`. -/
def find_scan : List (Env → List Char → Except PyErr Dyn) → Env → List Char → Option Dyn
  | [], _, _ => none
  | f :: fs, env, text =>
    match f env text with
    | .ok d => some d
    | .error _ => find_scan fs env text

/-- The plain (non-combined) variants in registration order. The source
discovers subclasses at runtime (`BaseDynamic.__subclasses__()`); with
the application's import sequence the static-offset class is registered
first, then the four classes imported by `get_all_dynamics`, then the
absolute-linear class. -/
def plain_dynamics : List (Env → List Char → Except PyErr Dyn) :=
  [fun _ text => StaticOffsetDynamic.from_text text,
   fun _ text => LinearDynamic.from_text text,
   fun _ text => LinearWithPeakDynamic.from_text text,
   fun _ text => StepDueDateDynamic.from_text text,
   fun env text => LocationDynamic.from_text env text,
   fun _ text => AbsoluteLinearDynamic.from_text text]

/-- The class-level `prefixes` attributes in the same subclass order:
the combined and location classes hold plain lists, the static-offset
class a `@property`, and the linear, peaked, step-due and
absolute-linear classes `@staticmethod`s. -/
def prefixesAttrs : List PrefixesAttr :=
  [.pyList ["\x7bdynamic\x7d (+)/(-)/(|+) \x7bdynamic\x7d".data],
   .pyProperty ["static-offset.".data],
   .pyCallable LinearDynamic.prefixes,
   .pyCallable LinearWithPeakDynamic.prefixes,
   .pyCallable StepDueDateDynamic.prefixes,
   .pyList LocationDynamic.prefixes,
   .pyCallable AbsoluteLinearDynamic.prefixes]

/-- `BaseDynamic.get_all_prefixes` (`base_dynamic.py` lines 41-46):
`all_prefixes.extend(class_obj.prefixes)` over the registered classes.
Extending with a list concatenates; extending with a function object or
a property descriptor raises `TypeError` (not iterable). -/
def BaseDynamic.get_all_prefixes : Except PyErr (List (List Char)) :=
  prefixesAttrs.foldlM
    (fun acc attr =>
      match attr with
      | .pyList ps => .ok (acc ++ ps)
      | .pyCallable _ => .error .typeError
      | .pyProperty _ => .error .typeError)
    []

/-- The worker of `re.split(r'(\(\|\+\)|\(\+\)|\(-\))', text)` keeping
the captured operator tokens, scanning left to right with the regex's
alternation order. -/
def splitOpsGo : ℕ → List Char → List Char → List (List Char)
  | _, acc, [] => [acc.reverse]
  | 0, acc, text => [acc.reverse ++ text]
  | fuel + 1, acc, c :: rest =>
    if "(|+)".data.isPrefixOf (c :: rest) then
      acc.reverse :: "(|+)".data :: splitOpsGo fuel [] ((c :: rest).drop 4)
    else if "(+)".data.isPrefixOf (c :: rest) then
      acc.reverse :: "(+)".data :: splitOpsGo fuel [] ((c :: rest).drop 3)
    else if "(-)".data.isPrefixOf (c :: rest) then
      acc.reverse :: "(-)".data :: splitOpsGo fuel [] ((c :: rest).drop 3)
    else splitOpsGo fuel (c :: acc) rest

/-- Split a combined-dynamic text on the operator tokens, keeping them. -/
def splitOps (text : List Char) : List (List Char) :=
  splitOpsGo text.length [] text

namespace CombinedDynamic

/-- Resolve one operand of a combined expression against the plain
variants. In the source this is `find_dynamic(part, exclude=Combined)`
(`combined_dynamic.py`) and a re-entrant `find_dynamic(part)` in the
older copy (`base_dynamic.py` lines 111-129); both resolve to the first
matching non-combined variant: the `exclude` keyword raises a TypeError
that the enclosing scan swallows before reaching the older copy, whose
recursion bottoms out at the first plain match. An operand matching no
variant raises through `find_dynamic`'s unmatched-text path. -/
def findPlain (env : Env) (text : List Char) : Except PyErr Dyn :=
  match find_scan plain_dynamics env text with
  | some d => .ok d
  | none =>
    if text ≠ [] then
      match BaseDynamic.get_all_prefixes with
      | .ok ps => .error (.unmatchedDynamic ps)
      | .error e => .error e
    else .error .valueError

/-- Worker turning the non-empty stripped pieces into children and
operators, in order, mirroring the `for part in parts` loop. -/
def collectParts (env : Env) : List (List Char) → List Dyn → List Op →
    Except PyErr (List Dyn × List Op)
  | [], dynamics, operators => .ok (dynamics.reverse, operators.reverse)
  | part :: rest, dynamics, operators =>
    let part := pyStrip part
    if part = "(+)".data then collectParts env rest dynamics (.add :: operators)
    else if part = "(-)".data then collectParts env rest dynamics (.subtract :: operators)
    else if part = "(|+)".data then collectParts env rest dynamics (.guardedAdd :: operators)
    else do
      let d ← findPlain env part
      collectParts env rest (d :: dynamics) operators

/-- `CombinedDynamic.from_text` (`combined_dynamic.py` lines 59-77):
split on the operator tokens, drop whitespace-only pieces; a single
piece delegates to the plain variants; otherwise collect children and
operators and require at least one of each. -/
def from_text (env : Env) (text : List Char) : Except PyErr Dyn :=
  let parts := (splitOps text).filter (fun p => pyStrip p ≠ [])
  match parts with
  | [p] => findPlain env p
  | _ => do
    let (dynamics, operators) ← collectParts env parts [] []
    if dynamics.isEmpty || operators.isEmpty then .error .valueError
    else .ok (Dyn.combined dynamics operators)

end CombinedDynamic

/-- All registered variants in subclass order: the combined class first
(it is defined at `base_dynamic` import time), then the plain ones. -/
def all_dynamics : List (Env → List Char → Except PyErr Dyn) :=
  CombinedDynamic.from_text :: plain_dynamics

/-- `BaseDynamic.find_dynamic` (`base_dynamic.py` lines 48-59): scan the
registered variants, return the first success; when none matches and the
text is non-empty, raise — the raise first formats a message listing
`get_all_prefixes()`, whose own exception propagates instead when it
fails; empty text returns None. -/
def BaseDynamic.find_dynamic (env : Env) (text : List Char) :
    Except PyErr (Option Dyn) :=
  match find_scan all_dynamics env text with
  | some d => .ok (some d)
  | none =>
    if text ≠ [] then
      match BaseDynamic.get_all_prefixes with
      | .ok ps => .error (.unmatchedDynamic ps)
      | .error e => .error e
    else .ok none


/-! Collection queries (`task_collection.py`) and concrete fixtures. -/

/-- The completeness flag of each task in order, each computed by the
`is_complete` property read. The property also writes the result back
into the task, but a second read at the same instant returns the same
value, so one resolution per task stands for both loops of
`get_velocity`. -/
def tasksWithFlags : List Task → ℚ → Env → Except PyErr (List (Task × Bool))
  | [], _, _ => .ok []
  | t :: rest, now, env => do
    let r ← t.is_complete now env
    let tf ← tasksWithFlags rest now env
    .ok ((t, r.1) :: tf)

/-- Sum of `get_rendered_stress` over a task list, in order. -/
def sumRendered : List Task → ℚ → Env → Except PyErr ℚ
  | [], _, _ => .ok 0
  | t :: rest, now, env => do
    let v ← t.get_rendered_stress now env
    let r ← sumRendered rest now env
    .ok (v + r)

namespace TaskCollection

/-- `TaskCollection.get_velocity` (`task_collection.py` lines 40-54):
`accomplished_total` sums `stress_at_completion` over in-window history
entries of the tasks whose `is_complete` read is True;
`uncompleted_stress` sums rendered stress over the others; the result is
`accomplished / ((uncompleted or 1) + accomplished) * 100`, where `or`
replaces only a zero (falsy) sum by 1. -/
def get_velocity (filtered_tasks : List Task) (interval now : ℚ) (env : Env) :
    Except PyErr ℚ := do
  let flags ← tasksWithFlags filtered_tasks now env
  let completed_tasks := (flags.filter (fun p => p.2)).map (fun p => p.1)
  let accomplished_total := (completed_tasks.map (fun t =>
    ((t.history.filter (fun c => now - c.completed_at < interval)).map
      (fun c => c.stress_at_completion)).sum)).sum
  let uncompleted_stress ← sumRendered
    ((flags.filter (fun p => !p.2)).map (fun p => p.1)) now env
  .ok (accomplished_total /
    ((if uncompleted_stress = 0 then 1 else uncompleted_stress) + accomplished_total)
    * 100)

end TaskCollection

namespace VelocityClaim

/-- Modelled from the claim's words: accomplished is the sum of
`stress_at_completion` over ALL filtered tasks' history entries with
timestamps inside the window. -/
def accomplished (tasks : List Task) (interval now : ℚ) : ℚ :=
  (tasks.map (fun t =>
    ((t.history.filter (fun c => now - c.completed_at < interval)).map
      (fun c => c.stress_at_completion)).sum)).sum

/-- Modelled from the claim's words: outstanding is the sum of rendered
stress over currently-incomplete filtered tasks. -/
def outstanding (tasks : List Task) (now : ℚ) (env : Env) : ℚ :=
  (tasks.map (fun t =>
    match t.is_complete now env, t.get_rendered_stress now env with
    | .ok (false, _), .ok v => v
    | _, _ => 0)).sum

/-- Modelled from the claim's words:
`accomplished / (accomplished + max(outstanding, 1)) × 100`. -/
def velocity (tasks : List Task) (interval now : ℚ) (env : Env) : ℚ :=
  accomplished tasks interval now /
    (accomplished tasks interval now + max (outstanding tasks now env) 1) * 100

end VelocityClaim

/-- A concrete daily-at-08:00 cron over rational timestamps (seconds,
with 00:00 of day 0 at 0): occurrences at `86400k + 28800`; `next` is
strictly after the reference, `prev` is at or before it. -/
def daily8 : Cron where
  next t := 86400 * (ratFloor ((t - 28800) / 86400) + 1) + 28800
  prev t := 86400 * ratFloor ((t - 28800) / 86400) + 28800

/-- A concrete environment: every cron string evaluates to `daily8`, the
location provider is unavailable, distances are 0. -/
def envDaily8 : Env where
  cronEval := fun _ => daily8
  location := none
  geodesic := fun _ _ => 0

/-- A plain fixture task: incomplete, no recurrence, no dynamic. -/
def baseTask : Task where
  title := "t".data
  description := []
  difficulty := 1
  duration := 10
  stress := 10
  _is_complete := false
  due_date := none
  due_date_cron := none
  last_refreshed := 0
  identifier := "id".data
  dependent_on := []
  stress_dynamic := none
  creation_date := 0
  list_name := "default".data
  cool_down := none
  periodicity := none
  history := []
  status := .incomplete


/-- Fixture for C9's witness: one half of a dependency cycle. -/
def cycA : Task :=
  { baseTask with identifier := "A".data, stress := 5, dependent_on := ["B".data] }

/-- Fixture for C9's witness: the other half of the cycle. -/
def cycB : Task :=
  { baseTask with identifier := "B".data, stress := 10, dependent_on := ["A".data] }

/-- C9: on a task list whose `dependent_on` references form a cycle
(two tasks each listing the other), both dependency-completeness and
rendered stress are well-defined values: completeness reduces to the
other task's raw flag (the source scans only direct dependencies, with
no recursion) and rendered stress to the task's own rounded stress. -/
theorem dependency_cycle_is_safe :
    ∀ (a b : Task) (now : ℚ) (env : Env),
      a.identifier ≠ b.identifier →
      a.dependent_on = [b.identifier] →
      b.dependent_on = [a.identifier] →
      Task.dependent_tasks_complete a [a, b] = b._is_complete ∧
      Task.dependent_tasks_complete b [a, b] = a._is_complete ∧
      (a.stress_dynamic = none →
        Task.get_rendered_stress a now env = .ok (pyRound1 a.stress)) := by
  intro a b now env hid ha hb
  have hab : (a.identifier == b.identifier) = false := by
    simpa using hid
  have hba : (b.identifier == a.identifier) = false := by
    simpa using fun h => hid h.symm
  refine ⟨?_, ?_, ?_⟩
  · simp [Task.dependent_tasks_complete, ha, List.filter, hab]
  · simp [Task.dependent_tasks_complete, hb, List.filter, hba]
  · intro hdyn
    simp [Task.get_rendered_stress, hdyn]

/-- Witness for C9: the concrete cyclic pair resolves to defined values
(both blocked on the other's false flag, stress rendering intact). -/
theorem dependency_cycle_is_safe_witness :
    Task.dependent_tasks_complete cycA [cycA, cycB] = false ∧
    Task.dependent_tasks_complete cycB [cycA, cycB] = false ∧
    Task.get_rendered_stress cycA 0 envDaily8 = .ok (pyRound1 5) :=
  ⟨(dependency_cycle_is_safe cycA cycB 0 envDaily8 (by decide) rfl rfl).1,
   (dependency_cycle_is_safe cycA cycB 0 envDaily8 (by decide) rfl rfl).2.1,
   (dependency_cycle_is_safe cycA cycB 0 envDaily8 (by decide) rfl rfl).2.2 rfl⟩

/-- Fixture for C10: a completed cool-down task whose 90% threshold has
passed at the reading instant (completed at 0, read at 3960 s = 1.1 h,
cool-down "1hr"). -/
def flipTask : Task :=
  { baseTask with
    _is_complete := true, cool_down := some ("1hr".data),
    history := [⟨0, 10⟩], status := .complete }

unseal Rat.add Rat.mul Rat.inv Rat.sub in
/-- C10: every successful read of the `is_complete` property writes the
resolved value back into `_is_complete` and updates `status` (forced to
COMPLETE when complete, a stale COMPLETE demoted to INCOMPLETE), leaving
every other field unchanged; concretely, a mere read at 1.1 h flips the
stored true flag of a "1hr"-cool-down task to false without touching its
history. -/
theorem is_complete_writes_back_and_frames :
    (∀ (t : Task) (now : ℚ) (env : Env) (b : Bool) (t2 : Task),
      t.is_complete now env = .ok (b, t2) →
      t2 = { t with
                _is_complete := b,
                status := if b then TaskStatus.complete
                          else if t.status = TaskStatus.complete then
                            TaskStatus.incomplete
                          else t.status }) ∧
    flipTask.is_complete 3960 envDaily8 =
      .ok (false, { flipTask with
                      _is_complete := false,
                      status := TaskStatus.incomplete }) := by
  constructor
  · intro t now env b t2 h
    simp only [Task.is_complete, bind, Except.bind] at h
    cases hres : t.render_logic now env with
    | error e => rw [hres] at h; cases h
    | ok r =>
      rw [hres] at h
      simp only [Except.ok.injEq, Prod.mk.injEq] at h
      obtain ⟨hb, ht⟩ := h
      subst hb
      exact ht.symm
  · rfl

/-- Witness for C10: the frame property applied at the concrete flip. -/
theorem is_complete_writes_back_and_frames_witness :
    ({ flipTask with _is_complete := false, status := TaskStatus.incomplete } : Task) =
      { flipTask with
        _is_complete := false,
        status := if false then TaskStatus.complete
                  else if flipTask.status = TaskStatus.complete then TaskStatus.incomplete
                  else flipTask.status } :=
  is_complete_writes_back_and_frames.1 flipTask 3960 envDaily8 false _
    is_complete_writes_back_and_frames.2


/-- Strict progress of an iterated strictly-increasing function. -/
theorem lt_iterate_succ {f : ℚ → ℚ} (hf : ∀ x, x < f x) :
    ∀ (k : ℕ) (x : ℚ), x < f^[k + 1] x := by
  intro k
  induction k with
  | zero => intro x; simpa using hf x
  | succ k ih =>
    intro x
    rw [Function.iterate_succ_apply']
    exact lt_trans (ih x) (hf _)

unseal Rat.add Rat.mul Rat.inv Rat.sub in
/-- Two daily-08:00 occurrences after day 0, 08:00 land at day 2,
08:00. -/
theorem cronTask_due_eval : daily8.next^[1 + 1] (28800 : ℚ) = 201600 := by decide

/-- Fixture for C6: a daily-cron due date created at day 0, 08:00, with
one completion. -/
def cronTask : Task :=
  { baseTask with
    due_date_cron := some ("0 8 * * *".data),
    creation_date := 28800, history := [⟨200000, 1⟩] }

/-- C6: with `due_date_cron` set and N completions, `current_due_date`
is the (N+1)-th cron occurrence strictly after `creation_date` (the
(N+1)-fold iterate of the collaborator's strictly-increasing `next`),
depending only on the number of completions, not their timestamps; with
no cron it returns the fixed `due_date` (hence null when neither is
set); concretely, one completion under the daily-08:00 cron from
creation day 0 08:00 gives day 2 08:00. -/
theorem current_due_date_consumes_occurrences :
    (∀ (t : Task) (env : Env) (s : List Char), t.due_date_cron = some s →
      t.current_due_date env =
        some ((env.cronEval s).next^[t.history.length + 1] t.creation_date)) ∧
    (∀ (t : Task) (env : Env) (s : List Char) (h1 h2 : List CompletionRecord),
      t.due_date_cron = some s → h1.length = h2.length →
      Task.current_due_date { t with history := h1 } env =
        Task.current_due_date { t with history := h2 } env) ∧
    (∀ (t : Task) (env : Env) (s : List Char),
      t.due_date_cron = some s → (∀ x, x < (env.cronEval s).next x) →
      ∃ d, t.current_due_date env = some d ∧ t.creation_date < d) ∧
    (∀ (t : Task) (env : Env), t.due_date_cron = none →
      t.current_due_date env = t.due_date) ∧
    cronTask.current_due_date envDaily8 = some 201600 := by
  have main : ∀ (t : Task) (env : Env) (s : List Char), t.due_date_cron = some s →
      t.current_due_date env =
        some ((env.cronEval s).next^[t.history.length + 1] t.creation_date) := by
    intro t env s hs
    simp only [Task.current_due_date, hs]
    rw [dif_pos (by simp)]
    congr 1
    rw [List.get_eq_getElem, List.getElem_map, List.getElem_range]
  refine ⟨main, ?_, ?_, ?_, ?_⟩
  · intro t env s h1 h2 hs hlen
    rw [main { t with history := h1 } env s hs, main { t with history := h2 } env s hs]
    simp [hlen]
  · intro t env s hs hmono
    exact ⟨_, main t env s hs, lt_iterate_succ hmono _ _⟩
  · intro t env hnone
    rw [Task.current_due_date, hnone]
  · rw [main cronTask envDaily8 ("0 8 * * *".data) rfl]
    exact congrArg some cronTask_due_eval

/-- Witness for C6: the closed-form due date at the concrete fixture. -/
theorem current_due_date_consumes_occurrences_witness :
    cronTask.current_due_date envDaily8 =
      some ((envDaily8.cronEval ("0 8 * * *".data)).next^[cronTask.history.length + 1]
        cronTask.creation_date) :=
  current_due_date_consumes_occurrences.1 cronTask envDaily8 _ rfl

/-- Fixture for C5: daily-08:00 periodicity, completed at day 2, 12:00
(216000 s), read at day 4, 12:00 (388800 s). -/
def pTaskA : Task :=
  { baseTask with periodicity := some ("0 8 * * *".data), history := [⟨216000, 5⟩] }

/-- Fixture for C5: same periodicity, completed at day 4, 10:00
(381600 s), after the day-4 08:00 boundary. -/
def pTaskB : Task :=
  { baseTask with periodicity := some ("0 8 * * *".data), history := [⟨381600, 5⟩] }

/-- Fixture for C5: same periodicity, no completions. -/
def pTaskC : Task :=
  { baseTask with periodicity := some ("0 8 * * *".data) }

unseal Rat.add Rat.mul Rat.inv Rat.sub in
/-- C5 (divergence evaluation): with a completion at day 2 12:00 and now
day 4 12:00, `get_dynamic_base_date` returns day 4's 08:00 boundary
before now (374400), not the occurrence immediately following the most
recent completion (day 3 08:00 = 288000) as the claim and the repo's
test expect; with a completion at day 4 10:00 (after that boundary) it
returns the literal completion timestamp itself (381600); with no
completion it does return the boundary preceding now, as claimed. -/
theorem periodicity_base_date_divergence :
    pTaskA.get_dynamic_base_date 388800 envDaily8 = .ok 374400 ∧
    daily8.next 216000 = 288000 ∧
    (374400 : ℚ) ≠ 288000 ∧
    pTaskB.get_dynamic_base_date 388800 envDaily8 = .ok 381600 ∧
    pTaskB.history = [⟨381600, 5⟩] ∧
    daily8.next 381600 = 460800 ∧
    (381600 : ℚ) ≠ 460800 ∧
    pTaskC.get_dynamic_base_date 388800 envDaily8 = .ok (daily8.prev 388800) ∧
    daily8.prev 388800 = 374400 := by
  refine ⟨by decide, by decide, by decide, by decide, rfl, by decide, by decide,
    by decide, by decide⟩

/-- Fixture for C3: a task whose dynamic base date resolves to its
creation date, 1000 days before the reading instant. -/
def peakTask : Task :=
  { baseTask with creation_date := 86400000 }

/-- C3 (counterexample): `LinearWithPeakDynamic.apply` with an absent
task raises `AttributeError` (its body reads
`task.get_dynamic_base_date()`), so it neither tolerates a null task nor
returns 20 on the claim's sample input. -/
theorem linear_with_peak_null_task_fails :
    Dyn.apply (.linearWithPeak 1 20) 86400000 172800000 0 none envDaily8 =
      .error .attributeError := by
  simp [Dyn.apply]

unseal Rat.add Rat.mul Rat.inv Rat.sub in
/-- C3 (amended): Linear, AbsoluteLinear and StaticOffset succeed with
an absent task; LinearWithPeak additionally requires a task and raises
`AttributeError` without one, while with a task whose dynamic base date
is 1000 days past it returns the peak 20; StepDueDate fails with
`ValueError` when the task has no resolvable due date. -/
theorem task_nullability_amended :
    (∀ (interval creation now base : ℚ) (env : Env),
      Dyn.apply (.linear interval) creation now base none env =
        .ok (base + ((now - creation) / 86400) / interval)) ∧
    (∀ (ib ex creation now base : ℚ) (env : Env),
      Dyn.apply (.absoluteLinear ib ex) creation now base none env =
        .ok (base + (now - creation) / 86400 / ex * ib)) ∧
    (∀ (off creation now base : ℚ) (env : Env),
      Dyn.apply (.staticOffset off) creation now base none env =
        .ok (max (base + off) 0)) ∧
    (∀ (interval peak creation now base : ℚ) (env : Env),
      Dyn.apply (.linearWithPeak interval peak) creation now base none env =
        .error .attributeError) ∧
    Dyn.apply (.linearWithPeak 1 20) 86400000 172800000 0 (some peakTask) envDaily8 =
      .ok 20 ∧
    (∀ (pct days creation now base : ℚ) (env : Env) (t : Task),
      t.due_date = none → t.due_date_cron = none →
      Dyn.apply (.stepDueDate pct days) creation now base (some t) env =
        .error .valueError) := by
  have hbd : peakTask.get_dynamic_base_date 172800000 envDaily8 = .ok 86400000 := rfl
  refine ⟨fun _ _ _ _ _ => by simp [Dyn.apply], fun _ _ _ _ _ _ => by simp [Dyn.apply],
    fun _ _ _ _ _ => by simp [Dyn.apply], fun _ _ _ _ _ _ => by simp [Dyn.apply], ?_, ?_⟩
  · simp [Dyn.apply, hbd, Except.map]
    norm_num
  · intro pct days creation now base env t h1 h2
    simp [Dyn.apply, Task.current_due_date, h1, h2]

/-- Witness for C3's amended statement: the step-due-date failure at a
concrete task with no due date. -/
theorem task_nullability_amended_witness :
    Dyn.apply (.stepDueDate 10 5) 0 0 100 (some baseTask) envDaily8 =
      .error .valueError :=
  task_nullability_amended.2.2.2.2.2 10 5 0 0 100 envDaily8 baseTask rfl rfl


/-- In a chronologically sorted history, every record's timestamp is at
most the last record's. -/
theorem mem_le_getLast_completed :
    ∀ {l : List CompletionRecord},
      List.Sorted (fun a b => a.completed_at ≤ b.completed_at) l →
      ∀ {c : CompletionRecord}, c ∈ l → ∀ (h : l ≠ []),
        c.completed_at ≤ (l.getLast h).completed_at := by
  intro l
  induction l with
  | nil => intro _ c hc; cases hc
  | cons a rest ih =>
    intro hs c hc h
    rw [List.sorted_cons] at hs
    cases rest with
    | nil =>
      rw [List.mem_singleton.mp hc]
      simp [List.getLast]
    | cons b rest2 =>
      rw [List.getLast_cons (by simp)]
      rcases List.mem_cons.mp hc with rfl | hc2
      · exact hs.1 _ (List.getLast_mem _)
      · exact ih hs.2 hc2 (by simp)

/-- Fixture for C4: completed at time 0 with cool-down "1hr". -/
def coolTask : Task :=
  { baseTask with
    _is_complete := true, cool_down := some ("1hr".data),
    history := [⟨0, 10⟩], status := .complete }

unseal Rat.add Rat.mul Rat.inv Rat.sub in
/-- C4: for a task whose raw flag is true, whose cool-down parses to an
interval, and whose history is chronologically sorted, the `is_complete`
read reports complete exactly when `now - t_last ≤ 0.9 × interval`,
where `t_last` (the last history record's timestamp, or
`last_refreshed` on empty history) bounds every history timestamp; in
particular the "1hr" task completed at 0 reads complete at +0.5 h and
incomplete at +1.1 h. -/
theorem cool_down_complete_iff :
    (∀ (t : Task) (now : ℚ) (env : Env) (cd : List Char) (iv : ℚ),
      t._is_complete = true →
      t.cool_down = some cd →
      Task.convert_cool_down_str_to_delta cd = .ok iv →
      List.Sorted (fun a b => a.completed_at ≤ b.completed_at) t.history →
      (∀ c ∈ t.history, c.completed_at ≤
        (match t.history.getLast? with
         | some lastRec => lastRec.completed_at
         | none => t.last_refreshed)) ∧
      (t.is_complete now env).map Prod.fst =
        .ok (decide (now -
          (match t.history.getLast? with
           | some lastRec => lastRec.completed_at
           | none => t.last_refreshed) ≤ iv * (9/10)))) ∧
    (coolTask.is_complete 1800 envDaily8).map Prod.fst = .ok true ∧
    (coolTask.is_complete 3960 envDaily8).map Prod.fst = .ok false := by
  refine ⟨?_, by decide, by decide⟩
  intro t now env cd iv h1 h2 h3 hsort
  constructor
  · intro c hc
    have hne : t.history ≠ [] := by
      intro hnil; rw [hnil] at hc; cases hc
    rw [List.getLast?_eq_getLast t.history hne]
    exact mem_le_getLast_completed hsort hc hne
  · simp only [Task.is_complete, Task.render_logic, h1, h2, h3, bind, Except.bind]
    by_cases hgt : now -
        (match t.history.getLast? with
         | some lastRec => lastRec.completed_at
         | none => t.last_refreshed) > iv * (9/10)
    · simp [hgt, Except.map, le_of_lt, not_le.mpr hgt]
    · simp [hgt, Except.map, not_lt.mp hgt]

unseal Rat.add Rat.mul Rat.inv Rat.sub in
/-- Witness for C4: the iff applied to the concrete "1hr" task at
+1.1 h. -/
theorem cool_down_complete_iff_witness :
    (∀ c ∈ coolTask.history, c.completed_at ≤ (0 : ℚ)) ∧
    (coolTask.is_complete 3960 envDaily8).map Prod.fst =
      .ok (decide ((3960 : ℚ) - 0 ≤ 3600 * (9/10))) :=
  cool_down_complete_iff.1 coolTask 3960 envDaily8 ("1hr".data) 3600 rfl rfl rfl
    (List.sorted_singleton _)



unseal Rat.add Rat.mul Rat.inv Rat.sub in
/-- C2 (divergence evaluation): serializing the location dynamic from
the spec's wire example (latitude 40.7, longitude -74.0, radius 500.0)
produces a dash-separated token, and parsing it back fails (no variant's
`from_text` accepts it — the location parser requires the
"dynamic-location." / "location." dot prefixes — and the failure path
itself raises a TypeError while building the unmatched-dynamic message),
so parse(serialize(d)) reproduces no dynamic. -/
theorem location_roundtrip_fails :
    LocationDynamic.to_text (407/10) (-74) 500 =
      "dynamic-location-40.7--74.0-500.0".data ∧
    BaseDynamic.find_dynamic envDaily8 (LocationDynamic.to_text (407/10) (-74) 500) =
      .error .typeError :=
  ⟨by decide, by rfl⟩

instance : Inhabited (Env → List Char → Except PyErr Dyn) :=
  ⟨fun _ _ => .error .valueError⟩

/-- An empty scan result means every registered variant's `from_text`
raised. -/
theorem find_scan_eq_none_iff (fs : List (Env → List Char → Except PyErr Dyn))
    (env : Env) (text : List Char) :
    find_scan fs env text = none ↔ ∀ f ∈ fs, ∃ e, f env text = .error e := by
  induction fs with
  | nil =>
    constructor
    · intro _ f hf; cases hf
    · intro _; rfl
  | cons f fs ih =>
    have hstep : find_scan (f :: fs) env text =
        (match f env text with
         | .ok d => some d
         | .error _ => find_scan fs env text) := rfl
    cases hf : f env text with
    | ok d =>
      rw [hstep, hf]
      constructor
      · intro h; cases h
      · intro hall
        rcases hall f (List.mem_cons_self f fs) with ⟨e, he⟩
        rw [hf] at he; cases he
    | error e =>
      rw [hstep, hf]
      constructor
      · intro h g hg
        rcases List.mem_cons.mp hg with rfl | hg2
        · exact ⟨e, hf⟩
        · exact (ih.mp h) g hg2
      · intro hall
        exact ih.mpr (fun g hg => hall g (List.mem_cons_of_mem f hg))

/-- C8 (behaviour at the failure path): `find_dynamic` fails exactly on
non-empty text that no registered variant's `from_text` accepts — but
there the raised error is a TypeError escaping from
`get_all_prefixes()` (several variants expose `prefixes` as a method or
property, which `extend` cannot iterate), not the unmatched-dynamic
ValueError listing all known prefixes; empty input yields no dynamic and
no error. -/
theorem find_dynamic_error_behavior :
    (∀ (env : Env) (text : List Char),
      (∃ e, BaseDynamic.find_dynamic env text = .error e) ↔
        (text ≠ [] ∧ ∀ f ∈ all_dynamics, ∃ e, f env text = .error e)) ∧
    BaseDynamic.find_dynamic envDaily8 ("zzz".data) = .error .typeError ∧
    BaseDynamic.get_all_prefixes = .error .typeError ∧
    BaseDynamic.find_dynamic envDaily8 [] = .ok none := by
  refine ⟨?_, by rfl, by decide, by rfl⟩
  intro env text
  cases hscan : find_scan all_dynamics env text with
  | some d =>
    simp only [BaseDynamic.find_dynamic, hscan]
    constructor
    · rintro ⟨e, he⟩; cases he
    · rintro ⟨hne, hall⟩
      have hnone := (find_scan_eq_none_iff all_dynamics env text).mpr hall
      rw [hscan] at hnone; cases hnone
  | none =>
    simp only [BaseDynamic.find_dynamic, hscan]
    by_cases hne : text = []
    · subst hne
      rw [if_neg (fun h => h rfl)]
      constructor
      · rintro ⟨e, he⟩; cases he
      · rintro ⟨hne2, _⟩; exact absurd rfl hne2
    · rw [if_pos (by simpa using hne)]
      cases hp : BaseDynamic.get_all_prefixes with
      | ok ps =>
        constructor
        · intro _; exact ⟨hne, (find_scan_eq_none_iff all_dynamics env text).mp hscan⟩
        · intro _; exact ⟨_, rfl⟩
      | error e =>
        constructor
        · intro _; exact ⟨hne, (find_scan_eq_none_iff all_dynamics env text).mp hscan⟩
        · intro _; exact ⟨_, rfl⟩

/-- Witness for C8: on the unmatched text "zzz", the failure condition
of the iff holds — the text is non-empty and every registered variant
rejects it. -/
theorem find_dynamic_error_behavior_witness :
    ("zzz".data ≠ ([] : List Char) ∧
      ∀ f ∈ all_dynamics, ∃ e, f envDaily8 ("zzz".data) = .error e) :=
  (find_dynamic_error_behavior.1 envDaily8 ("zzz".data)).mp
    ⟨.typeError, find_dynamic_error_behavior.2.1⟩


/-- Fixture for C7: a currently-incomplete task with 70 pending stress
and a 30-stress completion record inside the trailing week. -/
def vTaskI : Task :=
  { baseTask with stress := 70, history := [⟨913600, 30⟩] }

/-- Fixture for C7: a currently-complete task (no recurrence policy)
whose 30-stress completion record lies inside the trailing week. -/
def vTaskC : Task :=
  { baseTask with
    _is_complete := true, status := .complete, history := [⟨917200, 30⟩] }

unseal Rat.add Rat.mul Rat.inv Rat.sub in
/-- C7 (counterexample): on a single currently-incomplete task holding
an in-window 30-stress completion record and 70 rendered stress,
`get_velocity` returns 0 — the source only credits history of tasks
whose `is_complete` read is True — while the claim's formula
(accomplished over all filtered tasks' in-window history, denominator
`accomplished + max(outstanding, 1)`) gives 30. -/
theorem velocity_formula_counterexample :
    TaskCollection.get_velocity [vTaskI] 604800 1000000 envDaily8 = .ok 0 ∧
    VelocityClaim.accomplished [vTaskI] 604800 1000000 = 30 ∧
    VelocityClaim.outstanding [vTaskI] 1000000 envDaily8 = 70 ∧
    VelocityClaim.velocity [vTaskI] 604800 1000000 envDaily8 = 30 ∧
    (0 : ℚ) ≠ 30 :=
  ⟨by decide, by decide, by decide, by decide, by decide⟩

unseal Rat.add Rat.mul Rat.inv Rat.sub in
/-- C7 (amended): `get_velocity` equals
`acc / ((out if out ≠ 0 else 1) + acc) × 100`, where `acc` sums
`stress_at_completion` over in-window history entries of the tasks whose
`is_complete` read is True (not of all filtered tasks) and `out` sums
rendered stress over the currently-incomplete ones; with accomplished 30
and outstanding 70 the result is 30. -/
theorem velocity_formula_amended :
    (∀ (tasks : List Task) (interval now : ℚ) (env : Env)
        (tf : List (Task × Bool)) (u : ℚ),
      tasksWithFlags tasks now env = .ok tf →
      sumRendered ((tf.filter (fun p => !p.2)).map (fun p => p.1)) now env = .ok u →
      TaskCollection.get_velocity tasks interval now env =
        .ok ((((tf.filter (fun p => p.2)).map (fun p => p.1)).map (fun t =>
            ((t.history.filter (fun c => now - c.completed_at < interval)).map
              (fun c => c.stress_at_completion)).sum)).sum /
          ((if u = 0 then 1 else u) +
            (((tf.filter (fun p => p.2)).map (fun p => p.1)).map (fun t =>
              ((t.history.filter (fun c => now - c.completed_at < interval)).map
                (fun c => c.stress_at_completion)).sum)).sum) * 100)) ∧
    TaskCollection.get_velocity [vTaskI, vTaskC] 604800 1000000 envDaily8 = .ok 30 := by
  constructor
  · intro tasks interval now env tf u h1 h2
    simp only [TaskCollection.get_velocity, h1, h2, bind, Except.bind]
  · decide

unseal Rat.add Rat.mul Rat.inv Rat.sub in
/-- Witness for C7's amended formula: applied to the single-task set,
whose flags and outstanding sum evaluate by rfl. -/
theorem velocity_formula_amended_witness :
    TaskCollection.get_velocity [vTaskI] 604800 1000000 envDaily8 =
      .ok ((0 : ℚ) / ((if (70 : ℚ) = 0 then 1 else 70) + 0) * 100) :=
  velocity_formula_amended.1 [vTaskI] 604800 1000000 envDaily8 [(vTaskI, false)] 70
    rfl rfl

end Procrastitask
